import Mathlib

/-!
Shallow embedding of the application logic of the CMD-2025 course repository:
the QuickNotes auth context (`context/AuthContext.tsx`), the redirect
logic of `app/(tabs)/_layout.tsx` and `app/login.tsx`, the notes CRUD
screen (`app/(tabs)/notes.tsx`), the CineView favorites context
(`context/favorites-context.tsx` with `components/FavoriteButton.tsx`),
and the GuessQuest game screen (`screens/GameScreen.tsx`).

React components are embedded as explicit state plus effect traces: each
event handler becomes a function from the component state (and the
responses of the network calls it awaits) to the next state together with
the ordered list of observable effects (network requests, alerts, console
logs, navigation) it performs.
-/

namespace CMD2025

/-! ## Auth: sessions and the AuthContext provider (context/AuthContext.tsx) -/

/-- The user object carried inside a Supabase session (the fields the app reads). -/
structure User where
  id : String
  email : String
  deriving Repr, DecidableEq

/-- A Supabase session as seen by the app: an opaque record exposing its user. -/
structure Session where
  user : User
  deriving Repr, DecidableEq

/-- State of the `AuthProvider` component: the two `useState` hooks. -/
structure AuthState where
  session : Option Session
  loading : Bool
  deriving Repr, DecidableEq

/-- Initial hook values of `AuthProvider`: `useState(null)` and `useState(true)`. -/
def authInitialState : AuthState := { session := none, loading := true }

/-- The value type the auth context exposes to consumers (`AuthContextType`). -/
structure AuthContextType where
  session : Option Session
  loading : Bool
  deriving Repr, DecidableEq

/-- Value handed to the context provider element: the provider passes exactly
the session/loading pair from its state. -/
def providerValue (st : AuthState) : AuthContextType :=
  { session := st.session, loading := st.loading }

/-- Observable effects of the auth provider lifecycle. -/
inductive AuthEffect where
  | getSession
  | subscribe
  | unsubscribe
  | log (event : String)
  deriving Repr, DecidableEq, BEq

/-- The body of the `useEffect(..., [])` in `AuthProvider`: one
`supabase.auth.getSession()` call, then one `onAuthStateChange` subscription. -/
def authMountEffects : List AuthEffect :=
  [AuthEffect.getSession, AuthEffect.subscribe]

/-- The `useEffect` cleanup of `AuthProvider`: `subscription.unsubscribe()`. -/
def authUnmountEffects : List AuthEffect :=
  [AuthEffect.unsubscribe]

/-- What `supabase.auth.getSession()` resolves with: a data payload holding the
session and a possible error field.  The then-callback of the provider
destructures only the session out of the data payload. -/
structure GetSessionResult where
  session : Option Session
  error : Option String
  deriving Repr, DecidableEq

/-- The `.then` callback of the initial `getSession()` call in `AuthProvider`:
log, `setSession(session)`, `setLoading(false)`.  The error field of the
result is never read. -/
def handleGetSession (st : AuthState) (r : GetSessionResult) :
    AuthState × List AuthEffect :=
  ({ session := r.session, loading := false },
   [AuthEffect.log "Initial session check"])

/-- The `onAuthStateChange` callback of `AuthProvider`: log,
`setSession(session)`, `setLoading(false)`.  The callback receives only an
event name and the new session; there is no error channel. -/
def handleAuthChange (st : AuthState) (event : String)
    (s : Option Session) : AuthState × List AuthEffect :=
  ({ session := s, loading := false },
   [AuthEffect.log "Auth state changed"])

/-! ## Routing: app/(tabs)/_layout.tsx and app/login.tsx -/

/-- The navigation targets used by `router.replace` in the two screens. -/
inductive Route where
  | login
  | notes
  deriving Repr, DecidableEq

/-- The `useEffect` of `TabLayout`: `if (!loading && !session)` replace to
`/login`; otherwise no navigation (the `else if` branch only logs). -/
def tabLayoutRedirect (session : Option Session) (loading : Bool) :
    Option Route :=
  if ¬ loading ∧ session.isNone then some Route.login else none

/-- The render of `TabLayout`: `if (loading) return null` — the tabs render
only once loading is false. -/
def tabLayoutRendersTabs (loading : Bool) : Bool :=
  ¬ loading

/-- The `useEffect` of `LoginScreen`: `if (session)` replace to
`/(tabs)/notes`. -/
def loginRedirect (session : Option Session) : Option Route :=
  if session.isSome then some Route.notes else none

/-! ## CineView favorites context and FavoriteButton -/

/-- Function `addFavorite` of `FavoritesContextProvider`: the functional
update spreads the current ids and appends the new id. -/
def addFavorite (currentIds : List Int) (id : Int) : List Int :=
  currentIds ++ [id]

/-- Function `removeFavorite` of `FavoritesContextProvider`: the functional
update filters the current ids, keeping those different from the id. -/
def removeFavorite (currentIds : List Int) (id : Int) : List Int :=
  currentIds.filter (fun movieId => movieId ≠ id)

/-- Computation `favoritesCtx.ids.includes(movieId)` of `FavoriteButton`. -/
def isFavorite (ids : List Int) (movieId : Int) : Bool :=
  ids.contains movieId

/-- Function `toggleFavorite` of `FavoriteButton`: remove when favorited, add
otherwise. -/
def toggleFavorite (ids : List Int) (movieId : Int) : List Int :=
  if isFavorite ids movieId then removeFavorite ids movieId
  else addFavorite ids movieId

/-! ## GuessQuest game screen (screens/GameScreen.tsx) -/

/-- State of `GameScreen`: the route param `playerName`, the `targetNumber`
`useState` (whose setter is never destructured), and the `guessCount`
`useState`. -/
structure GameState where
  playerName : String
  targetNumber : Int
  guessCount : Nat
  deriving Repr, DecidableEq

/-- Observable effects of `GameScreen` handlers. -/
inductive GameEffect where
  | alert (title message : String)
  | navigateGameOver (playerName : String) (targetNumber : Int)
      (guessCount : Nat)
  deriving Repr, DecidableEq

/-- The `useState` initializer of `targetNumber`:
`Math.floor(Math.random() * 100) + 1`, with `Math.random()` modelled as a
rational `r` with `0 ≤ r < 1`. -/
def initTargetNumber (r : ℚ) : Int :=
  ⌊r * 100⌋ + 1

/-- Handler `makeGuess` of `GameScreen`: it increments `guessCount` through a
functional update, then branches on the pre-update `guessCount` closure
value: navigate to `GameOver` carrying `guessCount + 1` when
`guessCount >= 2`, otherwise show the feedback alert. -/
def makeGuess (st : GameState) : GameState × List GameEffect :=
  let st' := { st with guessCount := st.guessCount + 1 }
  if st.guessCount ≥ 2 then
    (st', [GameEffect.navigateGameOver st.playerName st.targetNumber
            (st.guessCount + 1)])
  else
    (st', [GameEffect.alert "Guess Result"
            ("Not quite right! Try again. (" ++ toString (st.guessCount + 1)
              ++ "/3 guesses)")])

/-! ## QuickNotes notes screen (app/(tabs)/notes.tsx) -/

/-- The client-side `Note` type of the notes screen. -/
structure Note where
  id : String
  title : String
  content : String
  created_at : String
  deriving Repr, DecidableEq

/-- The field names of the client-side `Note` type, in declaration order. -/
def noteFields : List String :=
  ["id", "title", "content", "created_at"]

/-- The field names of the payload `addNote` inserts, in declaration
order. -/
def insertPayloadFields : List String :=
  ["title", "content", "user_id"]

/-- Modelled from the spec: the field set that the data-model section of the
spec ascribes to a note — a note holds title, content, owner reference and
creation time — against which the embedded `Note` type is compared. -/
def specNoteFields : List String :=
  ["title", "content", "user_id", "created_at"]

/-- A row of the remote `notes` table as the queries address it: the inserted
columns plus the selected columns and the `user_id` filter column. -/
structure DbRow where
  id : String
  title : String
  content : String
  user_id : String
  created_at : String
  deriving Repr, DecidableEq

/-- Projection of a database row to the columns named in the select clause of
`fetchNotes`: id, title, content and created_at. -/
def rowToNote (r : DbRow) : Note :=
  { id := r.id, title := r.title, content := r.content,
    created_at := r.created_at }

/-- The select request that `fetchNotes` builds: from the notes table, the
chosen columns, an equality filter on user_id, and an order on created_at
with ascending set to false. -/
structure SelectQuery where
  table : String
  columns : List String
  eqUserId : String
  orderColumn : String
  ascending : Bool
  deriving Repr, DecidableEq

/-- The query issued by `fetchNotes` for a session `s`. -/
def fetchNotesQuery (s : Session) : SelectQuery :=
  { table := "notes",
    columns := ["id", "title", "content", "created_at"],
    eqUserId := s.user.id,
    orderColumn := "created_at",
    ascending := false }

/-- Ascending order on rows by their `created_at` column. -/
def createdAtLe (a b : DbRow) : Prop :=
  a.created_at ≤ b.created_at

/-- Descending order on rows by their `created_at` column. -/
def createdAtGe (a b : DbRow) : Prop :=
  b.created_at ≤ a.created_at

instance : DecidableRel createdAtLe := fun a b =>
  inferInstanceAs (Decidable (a.created_at ≤ b.created_at))

instance : DecidableRel createdAtGe := fun a b =>
  inferInstanceAs (Decidable (b.created_at ≤ a.created_at))

instance : IsTotal DbRow createdAtLe :=
  ⟨fun a b => le_total a.created_at b.created_at⟩

instance : IsTotal DbRow createdAtGe :=
  ⟨fun a b => le_total b.created_at a.created_at⟩

instance : IsTrans DbRow createdAtLe :=
  ⟨fun _ _ _ h1 h2 => le_trans h1 h2⟩

instance : IsTrans DbRow createdAtGe :=
  ⟨fun _ _ _ h1 h2 => le_trans h2 h1⟩

/-- Remote semantics of the select request built by `fetchNotes`: the hosted
database keeps the rows whose `user_id` matches the equality filter and
returns them ordered by `created_at` in the requested direction. -/
def runNotesSelect (db : List DbRow) (q : SelectQuery) : List DbRow :=
  let matched := db.filter (fun r => r.user_id = q.eqUserId)
  if q.ascending then List.insertionSort createdAtLe matched
  else List.insertionSort createdAtGe matched

/-- Model of JavaScript `String.prototype.trim`: drop whitespace from both
ends of the string. -/
def jsTrim (s : String) : String :=
  ⟨((s.data.dropWhile Char.isWhitespace).reverse.dropWhile
      Char.isWhitespace).reverse⟩

/-- State of `NotesScreen`: the five `useState` hooks. -/
structure NotesState where
  notes : List Note
  modalVisible : Bool
  newNoteTitle : String
  newNoteContent : String
  loading : Bool
  deriving Repr, DecidableEq

/-- A database error as surfaced by the Supabase client (`error.message`). -/
structure DbError where
  message : String
  deriving Repr, DecidableEq

/-- The payload `addNote` inserts:
`{ title: newNoteTitle, content: newNoteContent, user_id: session.user.id }`. -/
structure InsertPayload where
  title : String
  content : String
  user_id : String
  deriving Repr, DecidableEq

/-- Observable effects of the notes screen handlers. -/
inductive Effect where
  | netSelect (q : SelectQuery)
  | netInsert (table : String) (payload : InsertPayload)
  | netUpdate (table : String) (payload : InsertPayload)
  | netDelete (table : String) (column value : String)
  | alert (title message : String)
  | consoleError (message : String)
  deriving Repr, DecidableEq

/-- Whether an effect is a network request to the hosted database.  The
the `netUpdate` constructor stands for the update request of the client SDK,
available
to the code but — as proved below — never emitted. -/
def Effect.isNet : Effect → Bool
  | Effect.netSelect _ => true
  | Effect.netInsert _ _ => true
  | Effect.netUpdate _ _ => true
  | Effect.netDelete _ _ _ => true
  | _ => false

/-- Whether an effect is a modal alert shown to the user. -/
def Effect.isAlert : Effect → Bool
  | Effect.alert _ _ => true
  | _ => false

/-- Whether an effect is a console log of an error. -/
def Effect.isConsoleError : Effect → Bool
  | Effect.consoleError _ => true
  | _ => false

/-- Handler `fetchNotes` of `NotesScreen`: it returns early without a session,
else issues the
select; `if (data) setNotes(data); if (error) console.error(...)`; loading is
set true before the call and false after.  `resp` is the response the awaited
call resolves with. -/
def fetchNotes (session : Option Session) (st : NotesState)
    (resp : Except DbError (List Note)) : NotesState × List Effect :=
  match session with
  | none => (st, [])
  | some s =>
    match resp with
    | Except.ok data =>
      ({ st with notes := data, loading := false },
       [Effect.netSelect (fetchNotesQuery s)])
    | Except.error e =>
      ({ st with loading := false },
       [Effect.netSelect (fetchNotesQuery s),
        Effect.consoleError ("Error fetching notes: " ++ e.message)])

/-- Handler `addNote` of `NotesScreen`.  Its guard — a blank trimmed title or
a missing session user — shows an alert and returns without any network
call.  Otherwise insert; on error alert; on success clear the form, close
the modal and re-fetch.  Argument `insErr` is the error of the insert
response and `refetchResp` the response of the triggered re-fetch. -/
def addNote (session : Option Session) (st : NotesState)
    (insErr : Option DbError) (refetchResp : Except DbError (List Note)) :
    NotesState × List Effect :=
  if jsTrim st.newNoteTitle = "" ∨ session.isNone then
    (st, [Effect.alert "Error" "Please enter a title"])
  else
    match session with
    | none => (st, [Effect.alert "Error" "Please enter a title"])
    | some s =>
      let payload : InsertPayload :=
        { title := st.newNoteTitle, content := st.newNoteContent,
          user_id := s.user.id }
      match insErr with
      | some e =>
        (st, [Effect.netInsert "notes" payload,
              Effect.alert "Error saving note" e.message])
      | none =>
        let st' := { st with newNoteTitle := "", newNoteContent := "",
                             modalVisible := false }
        let next := fetchNotes (some s) st' refetchResp
        (next.1, Effect.netInsert "notes" payload :: next.2)

/-- Handler `deleteNote` of `NotesScreen`: issue the delete filtered on `id`; on
error alert; on success `setNotes(notes.filter(note => note.id !== id))`. -/
def deleteNote (st : NotesState) (id : String) (err : Option DbError) :
    NotesState × List Effect :=
  match err with
  | some e =>
    (st, [Effect.netDelete "notes" "id" id,
          Effect.alert "Error deleting note" e.message])
  | none =>
    ({ st with notes := st.notes.filter (fun note => note.id ≠ id) },
     [Effect.netDelete "notes" "id" id])

/-- A concrete notes-screen state used for concrete evaluations. -/
def sampleState : NotesState :=
  { notes := [], modalVisible := false, newNoteTitle := "t",
    newNoteContent := "c", loading := false }

/-- A concrete session used for concrete evaluations. -/
def sampleSession : Session :=
  { user := { id := "u1", email := "a@b.c" } }

/-! ## Theorems -/

/-- C1: On mount the `AuthProvider` fetches the current session exactly once
and then subscribes exactly once to session-change notifications; each
notification sets the exposed session to the notified value and loading to
false; the context exposes exactly the pair `{session, loading}`, starting
from `session = none`, `loading = true`; the subscription is unsubscribed on
unmount. -/
theorem authProvider_contract :
    authMountEffects.count AuthEffect.getSession = 1 ∧
    authMountEffects.count AuthEffect.subscribe = 1 ∧
    authMountEffects = [AuthEffect.getSession, AuthEffect.subscribe] ∧
    (∀ st event s, (handleAuthChange st event s).1 =
      { session := s, loading := false }) ∧
    providerValue authInitialState = { session := none, loading := true } ∧
    (∀ st, providerValue st = { session := st.session, loading := st.loading }) ∧
    authUnmountEffects = [AuthEffect.unsubscribe] :=
  ⟨by decide, by decide, rfl, fun _ _ _ => rfl, rfl, fun _ => rfl, rfl⟩

/-- C2: Once loading is false, the tab layout redirects to the login route
exactly when the session is absent and never when one is present; the login
screen redirects to the notes route exactly when a session is present; while
loading, the tab layout renders nothing and issues no redirect. -/
theorem redirects_by_session_presence :
    (∀ session, tabLayoutRedirect session false = some Route.login ↔
      session = none) ∧
    (∀ s, tabLayoutRedirect (some s) false = none) ∧
    (∀ session, tabLayoutRedirect session true = none) ∧
    tabLayoutRendersTabs true = false ∧
    (∀ session, loginRedirect session = some Route.notes ↔ session ≠ none) := by
  refine ⟨fun session => ?_, fun s => ?_, fun session => ?_, rfl, fun session => ?_⟩
  · cases session <;> simp [tabLayoutRedirect]
  · simp [tabLayoutRedirect]
  · simp [tabLayoutRedirect]
  · cases session <;> simp [loginRedirect]

/-- C6: Errors delivered by the auth provider are neither retried nor
classified: the `getSession` handler ignores the error field entirely (its
output is the ordinary session/loading update plus one log), and the
session-change handler likewise performs one log and the ordinary update —
no effect vocabulary beyond a log is ever produced. -/
theorem authProvider_error_handling :
    (∀ st s err, handleGetSession st { session := s, error := err } =
      ({ session := s, loading := false },
       [AuthEffect.log "Initial session check"])) ∧
    (∀ st event s, handleAuthChange st event s =
      ({ session := s, loading := false },
       [AuthEffect.log "Auth state changed"])) :=
  ⟨fun _ _ _ => rfl, fun _ _ _ => rfl⟩

/-- C9: `addFavorite` appends to the end leaving existing elements unchanged,
`removeFavorite` removes every occurrence of the id and keeps all others in
their original order, removing after adding to a list not containing the id
restores the original list, and the `FavoriteButton` toggle flips the
favorited status in both directions. -/
theorem favorites_algebra :
    (∀ ids id, addFavorite ids id = ids ++ [id]) ∧
    (∀ ids id x, x ∈ removeFavorite ids id ↔ x ∈ ids ∧ x ≠ id) ∧
    (∀ ids id, List.Sublist (removeFavorite ids id) ids) ∧
    (∀ ids id, id ∉ ids → removeFavorite (addFavorite ids id) id = ids) ∧
    (∀ ids id, isFavorite ids id = true →
      isFavorite (toggleFavorite ids id) id = false) ∧
    (∀ ids id, isFavorite ids id = false →
      isFavorite (toggleFavorite ids id) id = true) := by
  refine ⟨fun ids id => rfl, fun ids id x => ?_, fun ids id => ?_,
    fun ids id h => ?_, fun ids id h => ?_, fun ids id h => ?_⟩
  · simp [removeFavorite]
  · exact List.filter_sublist ids
  · simp [removeFavorite, addFavorite, List.filter_append]
    exact fun a ha heq => h (heq ▸ ha)
  · simp only [toggleFavorite, h, if_true]
    simp [isFavorite, removeFavorite]
  · simp only [toggleFavorite, h, Bool.false_eq_true, if_false]
    simp [isFavorite, addFavorite]

/-- Witness for `favorites_algebra` at concrete inputs. -/
theorem favorites_algebra_spot :
    removeFavorite (addFavorite [1, 2] 3) 3 = [1, 2] ∧
    isFavorite (toggleFavorite [3, 1] 3) 3 = false ∧
    isFavorite (toggleFavorite [1, 2] 3) 3 = true :=
  ⟨favorites_algebra.2.2.2.1 [1, 2] 3 (by decide),
   favorites_algebra.2.2.2.2.1 [3, 1] 3 (by decide),
   favorites_algebra.2.2.2.2.2 [1, 2] 3 (by decide)⟩

/-- C10: From `guessCount = 0`, the first two presses of Make a Guess only
show a feedback alert, the third press navigates to GameOver passing
`guessCount = 3` with the unchanged player name and target number;
`makeGuess` never changes the player name or target number; and the target
number initializer yields an integer between 1 and 100 for any random draw
in `[0, 1)`. -/
theorem makeGuess_three_presses :
    (∀ r : ℚ, 0 ≤ r → r < 1 →
      1 ≤ initTargetNumber r ∧ initTargetNumber r ≤ 100) ∧
    (∀ st, (makeGuess st).1.playerName = st.playerName ∧
      (makeGuess st).1.targetNumber = st.targetNumber) ∧
    (∀ n t,
      makeGuess { playerName := n, targetNumber := t, guessCount := 0 } =
        ({ playerName := n, targetNumber := t, guessCount := 1 },
         [GameEffect.alert "Guess Result"
            "Not quite right! Try again. (1/3 guesses)"]) ∧
      makeGuess { playerName := n, targetNumber := t, guessCount := 1 } =
        ({ playerName := n, targetNumber := t, guessCount := 2 },
         [GameEffect.alert "Guess Result"
            "Not quite right! Try again. (2/3 guesses)"]) ∧
      makeGuess { playerName := n, targetNumber := t, guessCount := 2 } =
        ({ playerName := n, targetNumber := t, guessCount := 3 },
         [GameEffect.navigateGameOver n t 3])) := by
  refine ⟨fun r h0 h1 => ⟨?_, ?_⟩, fun st => ?_, fun n t => ⟨?_, ?_, ?_⟩⟩
  · have : (0:ℤ) ≤ ⌊r * 100⌋ := Int.floor_nonneg.mpr (by positivity)
    unfold initTargetNumber
    omega
  · have : ⌊r * 100⌋ < (100:ℤ) := Int.floor_lt.mpr (by push_cast; linarith)
    unfold initTargetNumber
    omega
  · unfold makeGuess
    split <;> simp
  · simp [makeGuess]
    decide
  · simp [makeGuess]
    decide
  · simp [makeGuess]

/-- Witness for `makeGuess_three_presses` at the concrete draw `r = 1/2`. -/
theorem makeGuess_three_presses_spot :
    1 ≤ initTargetNumber (1/2) ∧ initTargetNumber (1/2) ≤ 100 :=
  makeGuess_three_presses.1 (1/2) (by norm_num) (by norm_num)

/-- C3 counterexample: at the fetch call site an error response produces no
modal alert, only a console log — refuting that every call site surfaces its
error via a modal alert. -/
theorem fetchNotes_error_no_alert :
    ((fetchNotes (some sampleSession) sampleState
        (Except.error { message := "boom" })).2.any Effect.isAlert) = false ∧
    ((fetchNotes (some sampleSession) sampleState
        (Except.error { message := "boom" })).2.countP
          Effect.isConsoleError) = 1 := by
  decide

/-- C3 amended: each call site catches its error once — the create and delete
call sites surface the error via a single modal alert, while the fetch call
site surfaces it only via a single console log and shows no alert. -/
theorem notes_error_surfacing :
    (∀ s st e, (fetchNotes (some s) st (Except.error e)).2 =
      [Effect.netSelect (fetchNotesQuery s),
       Effect.consoleError ("Error fetching notes: " ++ e.message)]) ∧
    (∀ st id e, (deleteNote st id (some e)).2 =
      [Effect.netDelete "notes" "id" id,
       Effect.alert "Error deleting note" e.message]) ∧
    (∀ s st e refetch, jsTrim st.newNoteTitle ≠ "" →
      (addNote (some s) st (some e) refetch).2 =
        [Effect.netInsert "notes"
           { title := st.newNoteTitle, content := st.newNoteContent,
             user_id := s.user.id },
         Effect.alert "Error saving note" e.message]) := by
  refine ⟨fun s st e => rfl, fun st id e => rfl, fun s st e refetch h => ?_⟩
  simp [addNote, h]

/-- Witness for `notes_error_surfacing` at concrete inputs. -/
theorem notes_error_surfacing_spot :
    (addNote (some sampleSession) sampleState (some { message := "boom" })
        (Except.ok [])).2 =
      [Effect.netInsert "notes"
         { title := "t", content := "c", user_id := "u1" },
       Effect.alert "Error saving note" "boom"] :=
  notes_error_surfacing.2.2 sampleSession sampleState { message := "boom" }
    (Except.ok []) (by decide)

/-- C4 counterexample: `addNote` is guarded — with no session (or an empty
title) it issues no network call at all and shows an alert, refuting that
the create operation issues a single network call unconditionally. -/
theorem addNote_guarded_no_call :
    ((addNote none sampleState none (Except.ok [])).2.countP
        Effect.isNet) = 0 ∧
    ((addNote none sampleState none (Except.ok [])).2.any
        Effect.isAlert) = true := by
  decide

/-- C4 amended: `deleteNote` issues exactly one network call — the delete —
unconditionally, with no retry and no queued request; `addNote` is guarded by
a precondition (nonempty trimmed title and a session): when the guard fails
it issues no call and shows an alert, when it passes it issues exactly the
insert call (on failure followed only by an alert, on success followed by
the single refresh select). -/
theorem crud_single_unretried_calls :
    (∀ st id err, (deleteNote st id err).2.filter Effect.isNet =
      [Effect.netDelete "notes" "id" id]) ∧
    (∀ session st insErr refetch,
      jsTrim st.newNoteTitle = "" ∨ session = none →
      (addNote session st insErr refetch).2 =
        [Effect.alert "Error" "Please enter a title"]) ∧
    (∀ s st e refetch, jsTrim st.newNoteTitle ≠ "" →
      (addNote (some s) st (some e) refetch).2.filter Effect.isNet =
        [Effect.netInsert "notes"
           { title := st.newNoteTitle, content := st.newNoteContent,
             user_id := s.user.id }] ∧
      (addNote (some s) st (some e) refetch).2.countP Effect.isAlert = 1) ∧
    (∀ s st refetch, jsTrim st.newNoteTitle ≠ "" →
      (addNote (some s) st none refetch).2.filter Effect.isNet =
        [Effect.netInsert "notes"
           { title := st.newNoteTitle, content := st.newNoteContent,
             user_id := s.user.id },
         Effect.netSelect (fetchNotesQuery s)]) := by
  refine ⟨fun st id err => ?_, fun session st insErr refetch h => ?_,
    fun s st e refetch h => ?_, fun s st refetch h => ?_⟩
  · cases err <;> rfl
  · rcases h with h | h
    · simp [addNote, h]
    · subst h
      simp [addNote]
  · constructor <;> simp [addNote, h, Effect.isNet, Effect.isAlert]
  · cases refetch <;> simp [addNote, fetchNotes, h, Effect.isNet]

/-- Witness for `crud_single_unretried_calls` at concrete inputs. -/
theorem crud_single_unretried_calls_spot :
    (addNote none sampleState none (Except.ok [])).2 =
      [Effect.alert "Error" "Please enter a title"] ∧
    (addNote (some sampleSession) sampleState none (Except.ok [])).2.filter
        Effect.isNet =
      [Effect.netInsert "notes"
         { title := "t", content := "c", user_id := "u1" },
       Effect.netSelect (fetchNotesQuery sampleSession)] :=
  ⟨crud_single_unretried_calls.2.1 none sampleState none (Except.ok [])
     (Or.inr rfl),
   crud_single_unretried_calls.2.2.2 sampleSession sampleState (Except.ok [])
     (by decide)⟩

/-- C5: With a session, `fetchNotes` issues exactly one select filtered on
the id of the session user and ordered by `created_at` descending — the remote
semantics return exactly the rows owned by that user, sorted descending —
and on success the whole local list is replaced by the returned rows; with
no session it performs no network call and leaves the state unchanged. -/
theorem fetchNotes_owner_filter :
    (∀ st resp, fetchNotes none st resp = (st, [])) ∧
    (∀ s st data, (fetchNotes (some s) st (Except.ok data)).1.notes = data) ∧
    (∀ s st resp, (fetchNotes (some s) st resp).2.filter Effect.isNet =
      [Effect.netSelect (fetchNotesQuery s)]) ∧
    (∀ s, (fetchNotesQuery s).eqUserId = s.user.id ∧
      (fetchNotesQuery s).orderColumn = "created_at" ∧
      (fetchNotesQuery s).ascending = false) ∧
    (∀ s db r, r ∈ runNotesSelect db (fetchNotesQuery s) ↔
      r ∈ db ∧ r.user_id = s.user.id) ∧
    (∀ s db, List.Sorted createdAtGe (runNotesSelect db (fetchNotesQuery s))) := by
  refine ⟨fun st resp => rfl, fun s st data => rfl, fun s st resp => ?_,
    fun s => ⟨rfl, rfl, rfl⟩, fun s db r => ?_, fun s db => ?_⟩
  · cases resp <;> rfl
  · simp [runNotesSelect, fetchNotesQuery, List.mem_insertionSort,
      List.mem_filter]
  · simp only [runNotesSelect, fetchNotesQuery, Bool.false_eq_true, if_false]
    exact List.sorted_insertionSort createdAtGe _

/-- C7 counterexample: the client note record carries an `id` field, which
the claimed exact field set {title, content, user_id, created_at} lacks, and
the record itself carries no `user_id` field. -/
theorem noteFields_ne_spec :
    "id" ∈ noteFields ∧ "id" ∉ specNoteFields ∧ "user_id" ∉ noteFields ∧
    noteFields ≠ specNoteFields := by
  decide

/-- C7 amended: the client note record carries exactly id, title, content and
created_at, the owner reference (user_id) travels only in the insert payload
and the fetch filter, and the lifecycle is create/read/delete only: no code
path of the notes screen ever emits an update request. -/
theorem note_lifecycle_no_update :
    noteFields = ["id", "title", "content", "created_at"] ∧
    (∀ p, p ∈ insertPayloadFields ↔
      p ∈ ["title", "content", "user_id"]) ∧
    (∀ session st resp t p,
      Effect.netUpdate t p ∉ (fetchNotes session st resp).2) ∧
    (∀ session st insErr refetch t p,
      Effect.netUpdate t p ∉ (addNote session st insErr refetch).2) ∧
    (∀ st id err t p,
      Effect.netUpdate t p ∉ (deleteNote st id err).2) := by
  refine ⟨rfl, fun p => Iff.rfl, fun session st resp t p => ?_,
    fun session st insErr refetch t p => ?_, fun st id err t p => ?_⟩
  · cases session <;> cases resp <;> simp [fetchNotes]
  · unfold addNote
    split
    · simp
    · split
      · simp
      · split
        · simp
        · cases refetch <;> simp [fetchNotes]
  · cases err <;> simp [deleteNote]

/-- Witness for `note_lifecycle_no_update` at concrete inputs. -/
theorem note_lifecycle_no_update_spot :
    Effect.netUpdate "notes" { title := "a", content := "b", user_id := "u" } ∉
      (deleteNote sampleState "1" none).2 :=
  note_lifecycle_no_update.2.2.2.2 sampleState "1" none "notes"
    { title := "a", content := "b", user_id := "u" }

/-- C8: `deleteNote` changes the local list only when the remote delete
succeeds — exactly the notes with the given id are removed, all others kept
in their original order — and on error the state is returned unchanged with
the single delete call followed only by an alert. -/
theorem deleteNote_atomic :
    (∀ st id e, deleteNote st id (some e) =
      (st, [Effect.netDelete "notes" "id" id,
            Effect.alert "Error deleting note" e.message])) ∧
    (∀ st id, (deleteNote st id none).1.notes =
      st.notes.filter (fun note => note.id ≠ id)) ∧
    (∀ st id n, n ∈ (deleteNote st id none).1.notes ↔
      n ∈ st.notes ∧ n.id ≠ id) ∧
    (∀ st id, List.Sublist (deleteNote st id none).1.notes st.notes) ∧
    (∀ st id, (deleteNote st id none).2 =
      [Effect.netDelete "notes" "id" id]) := by
  refine ⟨fun st id e => rfl, fun st id => rfl, fun st id n => ?_,
    fun st id => ?_, fun st id => rfl⟩
  · simp [deleteNote]
  · exact List.filter_sublist st.notes

end CMD2025
